import Mathlib

/-!
Shallow embedding of the `puente` middleware package (Go).

The package provides two HTTP middleware units:

* `Middleware.JWTMiddleware` (jwt.go): asks an extractor for JWT claims and,
  on success, layers the claim subject onto the request context under the
  user-id key; on failure it logs a warning and passes the request through
  unchanged.
* `Middleware.Logging` (logger.go): resolves a request id (reusing a
  context-supplied one or generating a fresh one), wraps the response writer
  to observe the status code, runs the inner handler, and emits a completion
  log entry.

Go's `context.Context` is modelled as a layered association list from typed
keys to dynamically typed values (`GoValue`); `context.WithValue` is list
cons, `Context.Value` is first-match lookup.  The logrus logger is modelled
by returning the list of emitted entries; each entry carries a level, a
message and its field map (as an association list).  `http.ResponseWriter`
is modelled as a sink recording the forwarded header writes and body writes;
the wrapping `responseWriter` additionally records the observed status code.
Handlers are modelled as functions from the request to the writer actions
they perform, the log entries they emit and the requests seen at their probe
points; wall-clock readings (`time.Now`, `time.Since`) and the UUID produced
by `generateRequestID` are supplied as explicit parameters since they are
environment inputs.
-/

namespace Puente

/-- The typed context keys of the package: `UserIDKey = contextKey "user_id"`
and `RequestIDKey = contextKey "request_id"` (jwt.go, part of the shared
declarations). -/
inductive CtxKey where
  | userID
  | requestID
deriving DecidableEq, Repr

/-- A dynamically typed Go value stored in a context or a log field:
a string, an integer (also used for statuses and durations), or some other
non-string value (only its identity matters). -/
inductive GoValue where
  | str (s : String)
  | int (n : Int)
  | other (tag : Nat)
deriving DecidableEq, Repr

/-- Whether a `GoValue` is a string, i.e. whether the Go type assertion
`v.(string)` succeeds. -/
def GoValue.isStr : GoValue → Bool
  | .str _ => true
  | _ => false

/-- A request-scoped context carrier: layered key/value pairs, most recent
layer first.  `context.WithValue` conses a layer; lookup returns the most
recently layered value. -/
abbrev Context := List (CtxKey × GoValue)

/-- `ctx.Value(k)`: first-match lookup over the layers; `none` models the
nil interface returned when the key is absent. -/
def ctxValue : Context → CtxKey → Option GoValue
  | [], _ => none
  | (k2, v) :: rest, k => if k2 = k then some v else ctxValue rest k

/-- `context.WithValue(ctx, k, v)`: a new context layering one more pair. -/
def withValue (ctx : Context) (k : CtxKey) (v : GoValue) : Context :=
  (k, v) :: ctx

/-- An HTTP request: method, escaped path, and its context. -/
structure Request where
  method : String
  path : String
  ctx : Context
deriving DecidableEq, Repr

/-- logrus severity levels used by the package. -/
inductive Level where
  | info
  | warn
deriving DecidableEq, Repr

/-- A structured log entry: severity, message, and field map (association
list; logrus field maps are unordered, all claims read fields by name). -/
structure LogEntry where
  level : Level
  msg : String
  fields : List (String × GoValue)
deriving DecidableEq, Repr

/-- Lookup a field of a log entry by name. -/
def fieldOf (e : LogEntry) (k : String) : Option GoValue :=
  match e.fields.find? (fun p => p.1 = k) with
  | none => none
  | some p => some p.2

/-- The underlying `http.ResponseWriter` sink: the header writes and body
writes forwarded to it, in order. -/
structure Sink where
  headers : List Int
  body : List String
deriving DecidableEq, Repr

/-- The decorating `responseWriter` of logger.go: wraps the sink and keeps
the last status code written (`statusCode`). -/
structure responseWriter where
  sink : Sink
  statusCode : Int
deriving DecidableEq, Repr

/-- `newResponseWriter(w)`: wraps `w` with the default status
`http.StatusOK = 200`. -/
def newResponseWriter (w : Sink) : responseWriter :=
  { sink := w, statusCode := 200 }

/-- `responseWriter.WriteHeader(code)`: records the code and forwards it to
the underlying sink. -/
def responseWriter.WriteHeader (r : responseWriter) (code : Int) : responseWriter :=
  { sink := { headers := r.sink.headers ++ [code], body := r.sink.body },
    statusCode := code }

/-- `responseWriter.Write(b)`: promoted from the embedded sink — forwards
the bytes verbatim and leaves the recorded status untouched. -/
def responseWriter.Write (r : responseWriter) (b : String) : responseWriter :=
  { sink := { headers := r.sink.headers, body := r.sink.body ++ [b] },
    statusCode := r.statusCode }

/-- One interaction of a handler with its response writer. -/
inductive WriterAction where
  | writeHeader (code : Int)
  | write (b : String)
deriving DecidableEq, Repr

/-- Replay a handler's writer interactions against a wrapped writer. -/
def applyActions : responseWriter → List WriterAction → responseWriter
  | rw, [] => rw
  | rw, .writeHeader c :: rest => applyActions (rw.WriteHeader c) rest
  | rw, .write b :: rest => applyActions (rw.Write b) rest

/-- What running a handler on a request produces: the writer actions it
performs (in order), the log entries it emits (in order), and the requests
observed at its probe points (used to state what context the innermost
handler sees). -/
structure HandlerResult where
  acts : List WriterAction
  entries : List LogEntry
  seen : List Request

/-- An `http.Handler`, as a pure function of the request. -/
def Handler := Request → HandlerResult

/-- A handler that does nothing but record the request it was invoked
with. -/
def probeHandler : Handler := fun r =>
  { acts := [], entries := [], seen := [r] }

/-- A handler that performs a fixed list of writer actions and records the
request it was invoked with. -/
def actHandler (acts : List WriterAction) : Handler := fun r =>
  { acts := acts, entries := [], seen := [r] }

/-- The JWT claims record (jwt.go). -/
structure JWTClaims where
  Sub : String
  Issuer : String
  AuthTime : String
  Exp : String
  Iat : String
  Jti : String
  Scope : String
deriving DecidableEq, Repr

/-- The `Middleware` configuration: application name and the pluggable
`JWTExtractor`.  `ExtractJWT(r) -> (JWTClaims, error)` is modelled as
`Option JWTClaims`: `none` is the error outcome (the claims value returned
alongside a non-nil error is never consulted by the middleware). -/
structure Middleware where
  app : String
  extractor : Request → Option JWTClaims

/-- `generateRequestID()` returns `uuid.New().String()`; the UUID produced
by one invocation is an environment input, supplied as `fresh`. -/
def generateRequestID (fresh : String) : String :=
  fresh

/-- `defaultLogFields()`: the default fields of any log entry — the app name
and the formatted current time (an environment input, supplied as `now`). -/
def Middleware.defaultLogFields (m : Middleware) (now : String) : List (String × GoValue) :=
  [("app", GoValue.str m.app), ("timestamp", GoValue.str now)]

/-- `GetUserID(ctx)`: returns the user id and `true` when the user-id key
holds a string; `("", false)` when the key is absent (nil value) or when the
type assertion to string fails. -/
def GetUserID (ctx : Context) : String × Bool :=
  match ctxValue ctx CtxKey.userID with
  | none => ("", false)
  | some (GoValue.str s) => (s, true)
  | some _ => ("", false)

/-- `GetRequestID(ctx)`: returns the request id and `true` when the
request-id key holds a string; `("", false)` when the key is absent or the
type assertion to string fails. -/
def GetRequestID (ctx : Context) : String × Bool :=
  match ctxValue ctx CtxKey.requestID with
  | none => ("", false)
  | some (GoValue.str s) => (s, true)
  | some _ => ("", false)

/-- `Middleware.JWTMiddleware(next)` (jwt.go): calls the extractor once; on
error, logs `Warn("Failed to extract JWT claims")` (no fields) and invokes
`next` with the request unchanged; on success, logs
`WithField("user_id", claims.Sub).Info("User ID found in JWT")`, layers the
subject under the user-id key and invokes `next` with the new context. -/
def Middleware.JWTMiddleware (m : Middleware) (next : Handler) : Handler := fun r =>
  match m.extractor r with
  | none =>
      let res := next r
      { acts := res.acts,
        entries :=
          { level := Level.warn, msg := "Failed to extract JWT claims", fields := [] }
            :: res.entries,
        seen := res.seen }
  | some claims =>
      let res := next { r with ctx := withValue r.ctx CtxKey.userID (GoValue.str claims.Sub) }
      { acts := res.acts,
        entries :=
          { level := Level.info, msg := "User ID found in JWT",
            fields := [("user_id", GoValue.str claims.Sub)] }
            :: res.entries,
        seen := res.seen }

/-- What one invocation of the logging middleware produces: the final state
of the wrapped writer, all log entries emitted during the request (inner
handler's first, then the logging middleware's own), the requests seen at
the probe points, and the number of ids minted by `generateRequestID`. -/
structure LoggingResult where
  rw : responseWriter
  entries : List LogEntry
  seen : List Request
  minted : Nat
deriving Repr

/-- The body of `Middleware.Logging` after the request id has been resolved
(logger.go lines 52-72): wrap the writer, run `next` on the (possibly
updated) request `r`, then build the log fields — defaults, `request_id`,
`status` from the wrapped writer, `method`, `path`, `duration` — read the
user id from `r`'s own context (warning when absent), add `user_id` and emit
the `Info("Request completed")` entry. -/
def loggingTail (m : Middleware) (next : Handler) (now : String) (dur : Int)
    (w : Sink) (r : Request) (requestID : GoValue) (minted : Nat) : LoggingResult :=
  let wrapped := newResponseWriter w
  let res := next r
  let wrapped2 := applyActions wrapped res.acts
  let logFields := m.defaultLogFields now ++
    [("request_id", requestID),
     ("status", GoValue.int wrapped2.statusCode),
     ("method", GoValue.str r.method),
     ("path", GoValue.str r.path),
     ("duration", GoValue.int dur)]
  let userPair := GetUserID r.ctx
  let warnEntries :=
    if userPair.2 then ([] : List LogEntry)
    else [{ level := Level.warn, msg := "Failed to get user ID from context",
            fields := logFields }]
  let completion : LogEntry :=
    { level := Level.info, msg := "Request completed",
      fields := logFields ++ [("user_id", GoValue.str userPair.1)] }
  { rw := wrapped2,
    entries := res.entries ++ warnEntries ++ [completion],
    seen := res.seen,
    minted := minted }

/-- `Middleware.Logging(next)` (logger.go lines 38-74): read the request-id
key from the inbound context; when the stored value is nil, generate a fresh
id and layer it into the context before invoking the inner handler (the id
minted by `generateRequestID` is the environment input `fresh`); when any
non-nil value is stored, reuse it verbatim and leave the context alone;
then proceed with `loggingTail`. -/
def Middleware.Logging (m : Middleware) (next : Handler) (fresh now : String) (dur : Int)
    (w : Sink) (r : Request) : LoggingResult :=
  match ctxValue r.ctx CtxKey.requestID with
  | none =>
      let requestID := GoValue.str (generateRequestID fresh)
      loggingTail m next now dur w
        { r with ctx := withValue r.ctx CtxKey.requestID requestID } requestID 1
  | some v =>
      loggingTail m next now dur w r v 0

/-! ### Sample inputs

Concrete configurations, requests and runs used to instantiate the general
theorems below on executable inputs. -/

/-- Claims with the given subject and all other fields empty. -/
def subClaims (s : String) : JWTClaims :=
  JWTClaims.mk s "" "" "" "" "" ""

/-- An extractor that ignores the request and returns a fixed outcome. -/
def extractorOf (c : Option JWTClaims) : Request → Option JWTClaims :=
  fun _ => c

/-- A middleware configuration with app name `test-app` and a fixed-outcome
extractor. -/
def mwWith (c : Option JWTClaims) : Middleware :=
  Middleware.mk "test-app" (extractorOf c)

/-- A GET request with an empty context. -/
def reqGET : Request :=
  Request.mk "GET" "/test" []

/-- A GET request whose inbound context already carries identity `bob`. -/
def reqWithUser : Request :=
  Request.mk "GET" "/test" [(CtxKey.userID, GoValue.str "bob")]

/-- A GET request whose inbound context maps the request-id key to a
non-string value. -/
def reqIntRid : Request :=
  Request.mk "GET" "/test" [(CtxKey.requestID, GoValue.int 123)]

/-- An underlying response sink with nothing written yet. -/
def emptySink : Sink :=
  Sink.mk [] []

/-- A middleware whose extractor always yields subject `alice`. -/
def mwAlice : Middleware :=
  mwWith (some (subClaims "alice"))

/-- The end-to-end composition Logging(Identity(probe)) run on `reqGET`
with a fresh id `rid-1`. -/
def chainRun : LoggingResult :=
  mwAlice.Logging (mwAlice.JWTMiddleware probeHandler) "rid-1" "now" 7 emptySink reqGET

/-- The field list of the completion entry emitted by `loggingTail`, as a
function of its parts; used to state what the completion entry contains. -/
def completionFields (m : Middleware) (now : String) (dur : Int) (rid : GoValue)
    (status : Int) (method path uid : String) : List (String × GoValue) :=
  m.defaultLogFields now ++
    [("request_id", rid), ("status", GoValue.int status), ("method", GoValue.str method),
     ("path", GoValue.str path), ("duration", GoValue.int dur)] ++
    [("user_id", GoValue.str uid)]

/-! ### Helper lemmas -/

/-- The last element of a list that ends in a singleton. -/
theorem getLast_triple (l1 l2 : List LogEntry) (c : LogEntry) :
    (l1 ++ (l2 ++ [c])).getLast? = some c := by
  rw [← List.append_assoc]
  exact List.getLast?_concat _

/-- The last entry the logging middleware leaves in the log is always the
completion entry, whatever the inner handler and the identity lookup did. -/
theorem loggingTail_getLast (m : Middleware) (next : Handler) (now : String) (dur : Int)
    (w : Sink) (r : Request) (rid : GoValue) (n : Nat) :
    (loggingTail m next now dur w r rid n).entries.getLast? =
      some (LogEntry.mk Level.info "Request completed"
        (completionFields m now dur rid
          (applyActions (newResponseWriter w) (next r).acts).statusCode
          r.method r.path (GetUserID r.ctx).1)) := by
  unfold loggingTail completionFields
  by_cases h : (GetUserID r.ctx).2 <;> simp [h, getLast_triple, List.append_assoc]

/-- Reading the `request_id` field of a completion entry. -/
theorem fieldOf_completion_rid (m : Middleware) (now : String) (dur : Int) (rid : GoValue)
    (status : Int) (method path uid : String) :
    fieldOf (LogEntry.mk Level.info "Request completed"
      (completionFields m now dur rid status method path uid)) "request_id" = some rid := by
  simp [fieldOf, completionFields, Middleware.defaultLogFields, List.find?]

/-- Reading the `user_id` field of a completion entry. -/
theorem fieldOf_completion_uid (m : Middleware) (now : String) (dur : Int) (rid : GoValue)
    (status : Int) (method path uid : String) :
    fieldOf (LogEntry.mk Level.info "Request completed"
      (completionFields m now dur rid status method path uid)) "user_id" = some (GoValue.str uid) := by
  simp [fieldOf, completionFields, Middleware.defaultLogFields, List.find?]

/-- Reading the `status` field of a completion entry. -/
theorem fieldOf_completion_status (m : Middleware) (now : String) (dur : Int) (rid : GoValue)
    (status : Int) (method path uid : String) :
    fieldOf (LogEntry.mk Level.info "Request completed"
      (completionFields m now dur rid status method path uid)) "status" = some (GoValue.int status) := by
  simp [fieldOf, completionFields, Middleware.defaultLogFields, List.find?]

/-- Reading the `method` field of a completion entry. -/
theorem fieldOf_completion_method (m : Middleware) (now : String) (dur : Int) (rid : GoValue)
    (status : Int) (method path uid : String) :
    fieldOf (LogEntry.mk Level.info "Request completed"
      (completionFields m now dur rid status method path uid)) "method" = some (GoValue.str method) := by
  simp [fieldOf, completionFields, Middleware.defaultLogFields, List.find?]

/-- Layering a request id does not change the identity lookup. -/
theorem GetUserID_layer_requestID (ctx : Context) (v : GoValue) :
    GetUserID ((CtxKey.requestID, v) :: ctx) = GetUserID ctx := by
  simp [GetUserID, ctxValue]

/-- When the identity lookup reports absent, the value it returns is the
empty string. -/
theorem GetUserID_val_of_not_found (ctx : Context) (h : (GetUserID ctx).2 = false) :
    (GetUserID ctx).1 = "" := by
  unfold GetUserID at *
  cases hv : ctxValue ctx CtxKey.userID with
  | none => simp [hv]
  | some v => cases v <;> simp_all [hv]

/-! ### Claim theorems -/

/-- C1: for a request whose inbound context carries no correlation id, the
Logging middleware mints exactly one fresh id and layers it into the context
before invoking the wrapped handler, so the same id is visible to the
handler (`GetRequestID` returns it with `true`) and recorded in the
completion entry's `request_id` field; for a request carrying a pre-set
string correlation id `x`, the completion entry's `request_id` equals `x`
verbatim and no id is generated. -/
theorem C1_loggingRequestID (m : Middleware) (fresh now : String) (dur : Int)
    (w : Sink) (r : Request) :
    (ctxValue r.ctx CtxKey.requestID = none →
      (m.Logging probeHandler fresh now dur w r).minted = 1 ∧
      ((m.Logging probeHandler fresh now dur w r).seen.head?.map
          (fun q => GetRequestID q.ctx)) = some (fresh, true) ∧
      ((m.Logging probeHandler fresh now dur w r).entries.getLast?.map
          (fun e => fieldOf e "request_id")) = some (some (GoValue.str fresh))) ∧
    (∀ x : String, ctxValue r.ctx CtxKey.requestID = some (GoValue.str x) →
      (m.Logging probeHandler fresh now dur w r).minted = 0 ∧
      ((m.Logging probeHandler fresh now dur w r).entries.getLast?.map
          (fun e => fieldOf e "request_id")) = some (some (GoValue.str x))) := by
  constructor
  · intro h
    unfold Middleware.Logging
    rw [h]
    refine ⟨rfl, ?_, ?_⟩
    · simp [loggingTail, probeHandler, withValue, generateRequestID, GetRequestID, ctxValue]
    · rw [loggingTail_getLast]
      simp [fieldOf_completion_rid, generateRequestID]
  · intro x h
    unfold Middleware.Logging
    rw [h]
    refine ⟨rfl, ?_⟩
    rw [loggingTail_getLast]
    simp [fieldOf_completion_rid]

/-- C1 witness: on a request with an empty context and fresh id `rid-1`,
exactly one id is minted, the handler sees `rid-1`, and the completion
entry records `rid-1`. -/
theorem C1_loggingRequestID_witness :
    ((mwWith none).Logging probeHandler "rid-1" "now" 7 emptySink reqGET).minted = 1 ∧
    (((mwWith none).Logging probeHandler "rid-1" "now" 7 emptySink reqGET).seen.head?.map
        (fun q => GetRequestID q.ctx)) = some ("rid-1", true) ∧
    (((mwWith none).Logging probeHandler "rid-1" "now" 7 emptySink reqGET).entries.getLast?.map
        (fun e => fieldOf e "request_id")) = some (some (GoValue.str "rid-1")) :=
  (C1_loggingRequestID (mwWith none) "rid-1" "now" 7 emptySink reqGET).1 rfl

/-- C2 counterexample: in the composition Logging(Identity(handler)) with an
extractor yielding subject `alice` and no inbound correlation id, the
wrapped handler does see identity `alice`, but the completion entry's
identity field is the empty string, not `alice` (the layer added by the
inner middleware is invisible to the logging middleware's completion read),
and the extraction info entry carries no correlation id field at all. -/
theorem C2_counterexample :
    (chainRun.seen.head?.map (fun q => GetUserID q.ctx)) = some ("alice", true) ∧
    (chainRun.entries.getLast?.map (fun e => fieldOf e "user_id")) =
        some (some (GoValue.str "")) ∧
    GoValue.str "" ≠ GoValue.str "alice" ∧
    (chainRun.entries.head?.map (fun e => fieldOf e "request_id")) = some none := by
  decide

/-- C2 as amended: end-to-end, for Logging(Identity(handler)) where the
extractor yields subject `alice` and the inbound context carries neither a
correlation id nor an identity: the wrapped handler's identity accessor
returns `("alice", true)`; the completion entry carries the request's
method, status 200 (the handler writes nothing) and the freshly minted
correlation id; but its identity field is the empty string — the identity
layered by the inner middleware is not visible to the logging middleware,
which also emits one `Failed to get user ID from context` warning — and the
extraction info entry carries no correlation id field. -/
theorem C2_endToEnd (m : Middleware) (claims : JWTClaims) (fresh now : String) (dur : Int)
    (w : Sink) (r : Request)
    (hE : ∀ q, m.extractor q = some claims)
    (hSub : claims.Sub = "alice")
    (hRid : ctxValue r.ctx CtxKey.requestID = none)
    (hUid : ctxValue r.ctx CtxKey.userID = none) :
    ((m.Logging (m.JWTMiddleware probeHandler) fresh now dur w r).seen.head?.map
        (fun q => GetUserID q.ctx)) = some ("alice", true) ∧
    ((m.Logging (m.JWTMiddleware probeHandler) fresh now dur w r).entries.getLast?.map
        (fun e => fieldOf e "method")) = some (some (GoValue.str r.method)) ∧
    ((m.Logging (m.JWTMiddleware probeHandler) fresh now dur w r).entries.getLast?.map
        (fun e => fieldOf e "status")) = some (some (GoValue.int 200)) ∧
    ((m.Logging (m.JWTMiddleware probeHandler) fresh now dur w r).entries.getLast?.map
        (fun e => fieldOf e "request_id")) = some (some (GoValue.str fresh)) ∧
    ((m.Logging (m.JWTMiddleware probeHandler) fresh now dur w r).entries.getLast?.map
        (fun e => fieldOf e "user_id")) = some (some (GoValue.str "")) ∧
    ((m.Logging (m.JWTMiddleware probeHandler) fresh now dur w r).entries.head?.map
        (fun e => fieldOf e "request_id")) = some none ∧
    ((m.Logging (m.JWTMiddleware probeHandler) fresh now dur w r).entries.countP
        (fun e => e.level = Level.warn ∧ e.msg = "Failed to get user ID from context")) = 1 := by
  have hu2 : GetUserID ((CtxKey.requestID, GoValue.str (generateRequestID fresh)) :: r.ctx) =
      ("", false) := by
    rw [GetUserID_layer_requestID]
    simp [GetUserID, hUid]
  unfold Middleware.Logging
  rw [hRid]
  refine ⟨?_, ?_, ?_, ?_, ?_, ?_, ?_⟩
  · simp [loggingTail, Middleware.JWTMiddleware, hE, probeHandler, withValue,
      GetUserID, ctxValue, hSub]
  · rw [loggingTail_getLast]; simp [fieldOf_completion_method]
  · rw [loggingTail_getLast]
    simp [Middleware.JWTMiddleware, hE, probeHandler, applyActions, newResponseWriter,
      fieldOf_completion_status]
  · rw [loggingTail_getLast]; simp [fieldOf_completion_rid, generateRequestID]
  · rw [loggingTail_getLast]
    simp [withValue, hu2, fieldOf_completion_uid]
  · simp [loggingTail, Middleware.JWTMiddleware, hE, probeHandler, fieldOf]
  · unfold loggingTail
    simp [withValue, hu2, Middleware.JWTMiddleware, hE, probeHandler,
      List.countP_append, List.countP_cons]

/-- C2 witness: the amended statement instantiated on the concrete
`alice` chain run. -/
theorem C2_endToEnd_witness :
    (chainRun.seen.head?.map (fun q => GetUserID q.ctx)) = some ("alice", true) ∧
    (chainRun.entries.getLast?.map (fun e => fieldOf e "status")) =
        some (some (GoValue.int 200)) ∧
    (chainRun.entries.getLast?.map (fun e => fieldOf e "request_id")) =
        some (some (GoValue.str "rid-1")) :=
  ⟨(C2_endToEnd mwAlice (subClaims "alice") "rid-1" "now" 7 emptySink reqGET
      (fun _ => rfl) rfl rfl rfl).1,
   (C2_endToEnd mwAlice (subClaims "alice") "rid-1" "now" 7 emptySink reqGET
      (fun _ => rfl) rfl rfl rfl).2.2.1,
   (C2_endToEnd mwAlice (subClaims "alice") "rid-1" "now" 7 emptySink reqGET
      (fun _ => rfl) rfl rfl rfl).2.2.2.1⟩

/-- C3 counterexample: with a failing extractor and an inbound context
already carrying identity `bob`, the warning entry carries no `app` field
(the claim says it carries app name, timestamp and correlation id), and the
downstream identity lookup reports present=true, not false. -/
theorem C3_counterexample :
    (((mwWith none).JWTMiddleware probeHandler reqWithUser).entries.head?.map
        (fun e => fieldOf e "app")) = some none ∧
    (((mwWith none).JWTMiddleware probeHandler reqWithUser).seen.head?.map
        (fun q => (GetUserID q.ctx).2)) = some true := by
  decide

/-- C3 as amended: for every request where the extractor returns an error,
the identity middleware emits exactly one warning entry with message
`Failed to extract JWT claims` carrying no fields, invokes the wrapped
handler with the original unmodified request, and — when the inbound
context carried no identity — the downstream identity lookup reports
present=false; the request proceeds. -/
theorem C3_extractionFailure (m : Middleware) (r : Request) (h : m.extractor r = none) :
    (m.JWTMiddleware probeHandler r).entries =
        [LogEntry.mk Level.warn "Failed to extract JWT claims" []] ∧
    (m.JWTMiddleware probeHandler r).seen = [r] ∧
    ((GetUserID r.ctx).2 = false →
      ((m.JWTMiddleware probeHandler r).seen.head?.map (fun q => (GetUserID q.ctx).2)) =
        some false) := by
  unfold Middleware.JWTMiddleware
  rw [h]
  refine ⟨by simp [probeHandler], by simp [probeHandler], ?_⟩
  intro hu
  simp [probeHandler, hu]

/-- C3 witness: the amended statement on a failing extractor and an empty
inbound context. -/
theorem C3_extractionFailure_witness :
    ((mwWith none).JWTMiddleware probeHandler reqGET).entries =
        [LogEntry.mk Level.warn "Failed to extract JWT claims" []] ∧
    (((mwWith none).JWTMiddleware probeHandler reqGET).seen.head?.map
        (fun q => (GetUserID q.ctx).2)) = some false :=
  ⟨(C3_extractionFailure (mwWith none) reqGET rfl).1,
   (C3_extractionFailure (mwWith none) reqGET rfl).2.2 rfl⟩

/-- C4 counterexample: on a successful extraction of subject `alice`, the
info entry carries no `app` field (the claim says it carries app name,
timestamp and correlation id), and the context handed to the wrapped
handler carries no correlation id (the claim says one is layered). -/
theorem C4_counterexample :
    (((mwWith (some (subClaims "alice"))).JWTMiddleware probeHandler reqGET).entries.head?.map
        (fun e => fieldOf e "app")) = some none ∧
    (((mwWith (some (subClaims "alice"))).JWTMiddleware probeHandler reqGET).seen.head?.map
        (fun q => (GetRequestID q.ctx).2)) = some false := by
  decide

/-- C4 as amended: for every request where the extractor succeeds, the
identity middleware emits an info entry with message `User ID found in JWT`
carrying the single field identity=claims.subject, and layers only the
identity — not a correlation id — onto the context before invoking the
wrapped handler. -/
theorem C4_extractionSuccess (m : Middleware) (r : Request) (claims : JWTClaims)
    (h : m.extractor r = some claims) :
    (m.JWTMiddleware probeHandler r).entries =
        [LogEntry.mk Level.info "User ID found in JWT" [("user_id", GoValue.str claims.Sub)]] ∧
    (m.JWTMiddleware probeHandler r).seen =
        [Request.mk r.method r.path (withValue r.ctx CtxKey.userID (GoValue.str claims.Sub))] ∧
    ((m.JWTMiddleware probeHandler r).seen.head?.map (fun q => ctxValue q.ctx CtxKey.requestID)) =
        some (ctxValue r.ctx CtxKey.requestID) := by
  unfold Middleware.JWTMiddleware
  rw [h]
  refine ⟨by simp [probeHandler], by simp [probeHandler, withValue], ?_⟩
  simp [probeHandler, withValue, ctxValue]

/-- C4 witness: the amended statement on a successful `alice` extraction. -/
theorem C4_extractionSuccess_witness :
    ((mwWith (some (subClaims "alice"))).JWTMiddleware probeHandler reqGET).entries =
        [LogEntry.mk Level.info "User ID found in JWT" [("user_id", GoValue.str "alice")]] :=
  (C4_extractionSuccess (mwWith (some (subClaims "alice"))) reqGET (subClaims "alice") rfl).1

/-- C5: for every request, whatever statuses or bytes the handler writes and
whether or not identity is present, the logging middleware emits exactly one
info-level `Request completed` entry; when identity is absent it emits in
addition exactly one `Failed to get user ID from context` warning, and the
completion entry's identity field is the empty string — the warning never
suppresses the completion entry. -/
theorem C5_completionAlways (m : Middleware) (acts : List WriterAction) (fresh now : String)
    (dur : Int) (w : Sink) (r : Request) :
    ((m.Logging (actHandler acts) fresh now dur w r).entries.countP
        (fun e => e.level = Level.info ∧ e.msg = "Request completed")) = 1 ∧
    ((GetUserID r.ctx).2 = false →
      ((m.Logging (actHandler acts) fresh now dur w r).entries.countP
          (fun e => e.level = Level.warn ∧ e.msg = "Failed to get user ID from context")) = 1 ∧
      ((m.Logging (actHandler acts) fresh now dur w r).entries.getLast?.map
          (fun e => fieldOf e "user_id")) = some (some (GoValue.str ""))) := by
  constructor
  · unfold Middleware.Logging
    cases h : ctxValue r.ctx CtxKey.requestID with
    | none =>
        unfold loggingTail
        by_cases hu : (GetUserID ((CtxKey.requestID,
            GoValue.str (generateRequestID fresh)) :: r.ctx)).2 <;>
          simp [hu, actHandler, withValue, List.countP_append, List.countP_cons]
    | some v =>
        unfold loggingTail
        by_cases hu : (GetUserID r.ctx).2 <;>
          simp [hu, actHandler, List.countP_append, List.countP_cons]
  · intro hu
    have hu2 : (GetUserID ((CtxKey.requestID,
        GoValue.str (generateRequestID fresh)) :: r.ctx)).2 = false := by
      rw [GetUserID_layer_requestID]; exact hu
    have hv : (GetUserID r.ctx).1 = "" := GetUserID_val_of_not_found r.ctx hu
    unfold Middleware.Logging
    cases h : ctxValue r.ctx CtxKey.requestID with
    | none =>
        constructor
        · unfold loggingTail
          simp [hu2, actHandler, withValue, List.countP_append, List.countP_cons]
        · rw [loggingTail_getLast]
          simp [withValue, GetUserID_layer_requestID, hv, fieldOf_completion_uid]
    | some v =>
        constructor
        · unfold loggingTail
          simp [hu, actHandler, List.countP_append, List.countP_cons]
        · rw [loggingTail_getLast]
          simp [hv, fieldOf_completion_uid]

/-- C5 witness: a handler writing status 500 on a request with no identity
still yields exactly one completion entry and one identity warning. -/
theorem C5_completionAlways_witness :
    (((mwWith none).Logging (actHandler [WriterAction.writeHeader 500]) "rid-1" "now" 7
        emptySink reqGET).entries.countP
        (fun e => e.level = Level.info ∧ e.msg = "Request completed")) = 1 ∧
    (((mwWith none).Logging (actHandler [WriterAction.writeHeader 500]) "rid-1" "now" 7
        emptySink reqGET).entries.countP
        (fun e => e.level = Level.warn ∧ e.msg = "Failed to get user ID from context")) = 1 :=
  ⟨(C5_completionAlways (mwWith none) [WriterAction.writeHeader 500] "rid-1" "now" 7
      emptySink reqGET).1,
   ((C5_completionAlways (mwWith none) [WriterAction.writeHeader 500] "rid-1" "now" 7
      emptySink reqGET).2 rfl).1⟩

/-- C6: the response observer reports 200 until a status is set; set-status
then write yields the set code; write alone leaves 200; write forwards the
bytes verbatim to the sink and never changes the observed status; repeated
set-status calls each record and forward, the last one winning. -/
theorem C6_responseObserver (w : Sink) (rw : responseWriter) (b : String) (c c1 c2 : Int) :
    (newResponseWriter w).statusCode = 200 ∧
    (((newResponseWriter w).WriteHeader c).Write b).statusCode = c ∧
    ((newResponseWriter w).Write b).statusCode = 200 ∧
    (rw.Write b).sink.body = rw.sink.body ++ [b] ∧
    (rw.Write b).sink.headers = rw.sink.headers ∧
    (rw.Write b).statusCode = rw.statusCode ∧
    ((rw.WriteHeader c1).WriteHeader c2).statusCode = c2 ∧
    ((rw.WriteHeader c1).WriteHeader c2).sink.headers = rw.sink.headers ++ [c1, c2] := by
  simp [newResponseWriter, responseWriter.WriteHeader, responseWriter.Write]

/-- C7: for every successful extraction with subject `S` — the empty string
included — the identity middleware places exactly `S` under the identity
key, and the identity accessor on the handler-visible context returns
`(S, true)`. -/
theorem C7_subjectPlaced (m : Middleware) (r : Request) (claims : JWTClaims)
    (h : m.extractor r = some claims) :
    ((m.JWTMiddleware probeHandler r).seen.head?.map (fun q => ctxValue q.ctx CtxKey.userID)) =
        some (some (GoValue.str claims.Sub)) ∧
    ((m.JWTMiddleware probeHandler r).seen.head?.map (fun q => GetUserID q.ctx)) =
        some (claims.Sub, true) := by
  unfold Middleware.JWTMiddleware
  rw [h]
  simp [probeHandler, GetUserID, ctxValue, withValue]

/-- C7 witness: the empty-subject case — the accessor still reports present
with the empty string. -/
theorem C7_subjectPlaced_witness :
    (((mwWith (some (subClaims ""))).JWTMiddleware probeHandler reqGET).seen.head?.map
        (fun q => GetUserID q.ctx)) = some ("", true) :=
  (C7_subjectPlaced (mwWith (some (subClaims ""))) reqGET (subClaims "") rfl).2

/-- C8: both context accessors are total: when the key is absent, or present
with a non-string value, they return `("", false)`; a type-mismatched value
is never surfaced as valid (the accessors are total Lean functions, so no
crash is possible). -/
theorem C8_accessorsTotal (ctx : Context) :
    (ctxValue ctx CtxKey.userID = none → GetUserID ctx = ("", false)) ∧
    (∀ v, ctxValue ctx CtxKey.userID = some v → v.isStr = false → GetUserID ctx = ("", false)) ∧
    (ctxValue ctx CtxKey.requestID = none → GetRequestID ctx = ("", false)) ∧
    (∀ v, ctxValue ctx CtxKey.requestID = some v → v.isStr = false → GetRequestID ctx = ("", false)) := by
  refine ⟨?_, ?_, ?_, ?_⟩
  · intro h; simp [GetUserID, h]
  · intro v h hv; cases v <;> simp_all [GetUserID, GoValue.isStr]
  · intro h; simp [GetRequestID, h]
  · intro v h hv; cases v <;> simp_all [GetRequestID, GoValue.isStr]

/-- C8 witness: an integer under the user-id key and a non-string tag under
the request-id key both read back as absent. -/
theorem C8_accessorsTotal_witness :
    GetUserID [(CtxKey.userID, GoValue.int 7)] = ("", false) ∧
    GetRequestID [(CtxKey.requestID, GoValue.other 0)] = ("", false) :=
  ⟨(C8_accessorsTotal _).2.1 (GoValue.int 7) rfl rfl,
   (C8_accessorsTotal _).2.2.2 (GoValue.other 0) rfl rfl⟩

/-- C9: for every request whose context maps the request-id key to any
non-nil value — a non-string value included — the Logging middleware mints
nothing, layers nothing (the handler sees the request unchanged), and
records exactly that stored value in the completion entry's `request_id`
field; a fresh id is minted only when the key is entirely absent. -/
theorem C9_nonNilRequestID (m : Middleware) (fresh now : String) (dur : Int)
    (w : Sink) (r : Request) :
    (∀ v, ctxValue r.ctx CtxKey.requestID = some v →
      (m.Logging probeHandler fresh now dur w r).minted = 0 ∧
      (m.Logging probeHandler fresh now dur w r).seen = [r] ∧
      ((m.Logging probeHandler fresh now dur w r).entries.getLast?.map
          (fun e => fieldOf e "request_id")) = some (some v)) ∧
    (ctxValue r.ctx CtxKey.requestID = none →
      (m.Logging probeHandler fresh now dur w r).minted = 1) := by
  constructor
  · intro v h
    unfold Middleware.Logging
    rw [h]
    refine ⟨rfl, by simp [loggingTail, probeHandler], ?_⟩
    rw [loggingTail_getLast]
    simp [fieldOf_completion_rid]
  · intro h
    unfold Middleware.Logging
    rw [h]
    rfl

/-- C9 witness: a non-string request id (the integer 123) is reused
verbatim in the completion entry even though `GetRequestID` reports it
absent, and no fresh id is minted. -/
theorem C9_nonNilRequestID_witness :
    GetRequestID reqIntRid.ctx = ("", false) ∧
    ((mwWith none).Logging probeHandler "rid-1" "now" 7 emptySink reqIntRid).minted = 0 ∧
    ((mwWith none).Logging probeHandler "rid-1" "now" 7 emptySink reqIntRid).seen = [reqIntRid] ∧
    (((mwWith none).Logging probeHandler "rid-1" "now" 7 emptySink reqIntRid).entries.getLast?.map
        (fun e => fieldOf e "request_id")) = some (some (GoValue.int 123)) :=
  ⟨by decide,
   ((C9_nonNilRequestID (mwWith none) "rid-1" "now" 7 emptySink reqIntRid).1
      (GoValue.int 123) rfl).1,
   ((C9_nonNilRequestID (mwWith none) "rid-1" "now" 7 emptySink reqIntRid).1
      (GoValue.int 123) rfl).2.1,
   ((C9_nonNilRequestID (mwWith none) "rid-1" "now" 7 emptySink reqIntRid).1
      (GoValue.int 123) rfl).2.2⟩

/-- C10: when the inbound context already carries a value under the identity
key: on successful extraction, the subject shadows it — the handler-visible
context holds exactly the new subject and the accessor returns
`(claims.Sub, true)`; on extraction failure, the pre-existing value is left
in place and the handler observes the inbound request unchanged. -/
theorem C10_preexistingIdentity (m : Middleware) (r : Request) (v : GoValue)
    (hPre : ctxValue r.ctx CtxKey.userID = some v) :
    (∀ claims, m.extractor r = some claims →
      ((m.JWTMiddleware probeHandler r).seen.head?.map (fun q => ctxValue q.ctx CtxKey.userID)) =
          some (some (GoValue.str claims.Sub)) ∧
      ((m.JWTMiddleware probeHandler r).seen.head?.map (fun q => GetUserID q.ctx)) =
          some (claims.Sub, true)) ∧
    (m.extractor r = none →
      (m.JWTMiddleware probeHandler r).seen = [r] ∧
      ((m.JWTMiddleware probeHandler r).seen.head?.map (fun q => ctxValue q.ctx CtxKey.userID)) =
          some (some v)) := by
  constructor
  · intro claims h
    unfold Middleware.JWTMiddleware
    rw [h]
    simp [probeHandler, GetUserID, ctxValue, withValue]
  · intro h
    unfold Middleware.JWTMiddleware
    rw [h]
    simp [probeHandler, hPre]

/-- C10 witness: a pre-existing identity `bob` is shadowed by `alice` on
success, and observed unchanged on failure. -/
theorem C10_preexistingIdentity_witness :
    (((mwWith (some (subClaims "alice"))).JWTMiddleware probeHandler reqWithUser).seen.head?.map
        (fun q => GetUserID q.ctx)) = some ("alice", true) ∧
    (((mwWith none).JWTMiddleware probeHandler reqWithUser).seen.head?.map
        (fun q => ctxValue q.ctx CtxKey.userID)) = some (some (GoValue.str "bob")) :=
  ⟨((C10_preexistingIdentity (mwWith (some (subClaims "alice"))) reqWithUser
      (GoValue.str "bob") rfl).1 (subClaims "alice") rfl).2,
   ((C10_preexistingIdentity (mwWith none) reqWithUser (GoValue.str "bob") rfl).2 rfl).2⟩

end Puente
